import Mathlib

/-!
Verification of the Open-Meteo weather tool (`src/tools/openmeteo.py`).

The tool resolves a place name to coordinates through a geocoding HTTP call
and then fetches a forecast through a second HTTP call, returning the
forecast body re-serialized as 2-space-indented JSON text.

We embed the pure request-construction logic directly, and model the two
HTTP exchanges by an environment that fixes the status and JSON body each
remote endpoint would answer with, together with the date string that
`datetime.now(tz=UTC).date()` yields at the single point the code reads
the clock.  The tool returns, besides its result, the trace of HTTP
requests it issued, so that claims about calls never being made are
statable.
-/

/-- JSON values.  Numbers carry their canonical textual rendering (the
`repr` Python would print for the parsed value), which is all the code
ever does with them: copy them into query parameters or print them back. -/
inductive Json where
  | null : Json
  | bool (b : Bool) : Json
  | num (lit : String) : Json
  | str (s : String) : Json
  | arr (items : List Json) : Json
  | obj (fields : List (String × Json)) : Json
deriving Repr

/-- The `temperature_unit` field is `Literal["celsius", "fahrenheit"]`. -/
inductive TemperatureUnit where
  | celsius : TemperatureUnit
  | fahrenheit : TemperatureUnit
deriving Repr, DecidableEq

/-- String rendering of a `TemperatureUnit` (pydantic keeps the literal). -/
def TemperatureUnit.toString : TemperatureUnit → String
  | .celsius => "celsius"
  | .fahrenheit => "fahrenheit"

/-- `OpenMeteoToolInput`: the pydantic request model.  `none` stands for an
omitted optional field (Python `None`). -/
structure OpenMeteoToolInput where
  location_name : String
  country : Option String := none
  start_date : Option String := none
  end_date : Option String := none
  temperature_unit : TemperatureUnit := .celsius
deriving Repr, DecidableEq

/-- The exceptions the tool body can raise: `requests`/`httpx`
`raise_for_status` errors, the explicit `ValueError`, and the lookup errors
Python raises for `geocode["latitude"]` on a dict without the key,
subscripting a non-sequence, indexing an empty list, or calling `.get` on a
non-dict. -/
inductive ToolError where
  | httpError (status : Nat) : ToolError
  | valueError (msg : String) : ToolError
  | keyError (key : String) : ToolError
  | indexError : ToolError
  | typeError : ToolError
  | attributeError : ToolError
deriving Repr, DecidableEq

/-- One outgoing HTTP request, identified by endpoint and the encoded query
string appended to the fixed base URL. -/
inductive HttpCall where
  | geocodeCall (query : String) : HttpCall
  | forecastCall (query : String) : HttpCall
deriving Repr, DecidableEq

/-- The ambient world of one invocation: what each remote endpoint answers
(status code and parsed JSON body) and the date string that
`str(datetime.now(tz=UTC).date())` produces at the moment the code reads
the clock. -/
structure Env where
  geocodeStatus : Nat
  geocodeBody : Json
  forecastStatus : Nat
  forecastBody : Json
  today : String
deriving Repr

/-- `requests.Response.raise_for_status` / `httpx.Response.raise_for_status`:
raise an HTTP error exactly when the status code is in 400..599. -/
def raise_for_status (status : Nat) : Except ToolError Unit :=
  if 400 ≤ status ∧ status < 600 then .error (.httpError status) else .ok ()

/-- Python `dict.get(key, default)`; calling `.get` on a non-dict raises
`AttributeError`. -/
def dictGet (j : Json) (key : String) (dflt : Json) : Except ToolError Json :=
  match j with
  | .obj fields => .ok ((List.lookup key fields).getD dflt)
  | _ => .error .attributeError

/-- Python `dict[key]`; a missing key raises `KeyError`, subscripting a
non-dict raises `TypeError`. -/
def dictItem (j : Json) (key : String) : Except ToolError Json :=
  match j with
  | .obj fields =>
    match List.lookup key fields with
    | some v => .ok v
    | none => .error (.keyError key)
  | _ => .error .typeError

/-- Whether the digits of a numeric literal (before any exponent) are all
zero, i.e. the literal denotes the number zero. -/
def numLitIsZero (lit : String) : Bool :=
  (lit.toList.takeWhile (fun c => c ≠ Char.ofNat 101 ∧ c ≠ Char.ofNat 69)
    |>.filter Char.isDigit).all (· == Char.ofNat 48)

/-- Python truthiness of a JSON value (`if not results:`). -/
def truthy : Json → Bool
  | .null => false
  | .bool b => b
  | .num lit => !numLitIsZero lit
  | .str s => s ≠ ""
  | .arr items => !items.isEmpty
  | .obj fields => !fields.isEmpty

/-- Python `str()` of a value as it appears in a query-parameter dict.  The
code only ever places strings and JSON scalars there; containers never
occur as parameter values, so their rendering is irrelevant. -/
def pyStr : Json → String
  | .null => "None"
  | .bool true => "True"
  | .bool false => "False"
  | .num lit => lit
  | .str s => s
  | .arr _ => ""
  | .obj _ => ""

/-- Upper-case hexadecimal digit. -/
def hexUpper (n : Nat) : Char :=
  if n < 10 then Char.ofNat (48 + n) else Char.ofNat (65 + n - 10)

/-- `urllib.parse.quote_plus` on one UTF-8 byte: space becomes `+`,
unreserved bytes (letters, digits, `_.-~`) pass through, everything else is
percent-encoded in upper-case hex. -/
def quoteByte (b : UInt8) : String :=
  let n := b.toNat
  if n = 32 then "+"
  else if (65 ≤ n ∧ n ≤ 90) ∨ (97 ≤ n ∧ n ≤ 122) ∨ (48 ≤ n ∧ n ≤ 57)
      ∨ n = 95 ∨ n = 46 ∨ n = 45 ∨ n = 126 then
    String.singleton (Char.ofNat n)
  else
    "%" ++ String.singleton (hexUpper (n / 16)) ++ String.singleton (hexUpper (n % 16))

/-- `urllib.parse.quote_plus` of a string: each byte of the UTF-8 encoding
quoted in turn. -/
def quotePlus (s : String) : String :=
  String.join (s.toUTF8.data.toList.map quoteByte)

/-- One `key=value` component of `urllib.parse.urlencode`. -/
def encodePair (p : String × Json) : String :=
  quotePlus p.1 ++ "=" ++ quotePlus (pyStr p.2)

/-- `urllib.parse.urlencode` of a parameter dict (association list in
insertion order, as a Python dict iterates). -/
def urlencode (params : List (String × Json)) : String :=
  String.intercalate "&" (params.map encodePair)

/-- Lower-case hexadecimal digit. -/
def hexLower (n : Nat) : Char :=
  if n < 10 then Char.ofNat (48 + n) else Char.ofNat (97 + n - 10)

/-- A `\uXXXX` escape with lower-case hex, as the `json` module emits. -/
def u4esc (n : Nat) : String :=
  "\\u" ++ String.singleton (hexLower (n / 4096 % 16))
    ++ String.singleton (hexLower (n / 256 % 16))
    ++ String.singleton (hexLower (n / 16 % 16))
    ++ String.singleton (hexLower (n % 16))

/-- How `json.dumps` (default `ensure_ascii=True`) renders one character of
a string: the two-character escapes for quote, backslash and the usual
control characters, `\uXXXX` for other characters outside printable ASCII
(surrogate pairs beyond the basic plane), the character itself otherwise. -/
def jsonEscapeChar (c : Char) : String :=
  let n := c.toNat
  if n = 34 then "\\\""
  else if n = 92 then "\\\\"
  else if n = 8 then "\\b"
  else if n = 12 then "\\f"
  else if n = 10 then "\\n"
  else if n = 13 then "\\r"
  else if n = 9 then "\\t"
  else if 32 ≤ n ∧ n ≤ 126 then String.singleton c
  else if n ≤ 65535 then u4esc n
  else u4esc (55296 + (n - 65536) / 1024) ++ u4esc (56320 + (n - 65536) % 1024)

/-- `json.dumps` rendering of a string, quotes included. -/
def jsonQuote (s : String) : String :=
  "\"" ++ String.join (s.toList.map jsonEscapeChar) ++ "\""

/-- `n` spaces. -/
def spaces (n : Nat) : String :=
  String.mk (List.replicate n (Char.ofNat 32))

mutual

/-- `json.dumps(value, indent=2)` at nesting level `lvl`: containers open on
the current line, put each child on its own line indented two more spaces,
and close on a fresh line at the indent of the container; empty containers
print on one line. -/
def dumpVal (lvl : Nat) : Json → String
  | .null => "null"
  | .bool true => "true"
  | .bool false => "false"
  | .num lit => lit
  | .str s => jsonQuote s
  | .arr [] => "[]"
  | .arr (x :: xs) => "[\n" ++ dumpItems lvl x xs ++ "\n" ++ spaces (2 * lvl) ++ "]"
  | .obj [] => "\x7b\x7d"
  | .obj (f :: fs) => "\x7b\n" ++ dumpFields lvl f fs ++ "\n" ++ spaces (2 * lvl) ++ "\x7d"
termination_by j => sizeOf j
decreasing_by all_goals (simp; omega)

/-- The items of a non-empty array, separated by `,\n`, each indented. -/
def dumpItems (lvl : Nat) (x : Json) (xs : List Json) : String :=
  match xs with
  | [] => spaces (2 * (lvl + 1)) ++ dumpVal (lvl + 1) x
  | y :: ys =>
    spaces (2 * (lvl + 1)) ++ dumpVal (lvl + 1) x ++ ",\n" ++ dumpItems lvl y ys
termination_by sizeOf x + sizeOf xs
decreasing_by all_goals (simp <;> omega)

/-- The members of a non-empty object, `"key": value` lines separated by
`,\n`, each indented. -/
def dumpFields (lvl : Nat) (f : String × Json) (fs : List (String × Json)) : String :=
  match fs with
  | [] => spaces (2 * (lvl + 1)) ++ jsonQuote f.1 ++ ": " ++ dumpVal (lvl + 1) f.2
  | g :: gs =>
    spaces (2 * (lvl + 1)) ++ jsonQuote f.1 ++ ": " ++ dumpVal (lvl + 1) f.2
      ++ ",\n" ++ dumpFields lvl g gs
termination_by sizeOf f + sizeOf fs
decreasing_by all_goals (obtain ⟨k, v⟩ := f; simp; omega)

end

/-- `json.dumps(j, indent=2)` as the tool calls it. -/
def json_dumps_indent2 (j : Json) : String :=
  dumpVal 0 j

/-- The parameter dict built by `_geocode`:
`{"format": "json", "count": 1, "name": location_name}`, plus
`params["country"] = country` when `country` is truthy (not `None` and not
the empty string). -/
def geocodeParams (location_name : String) (country : Option String) : List (String × Json) :=
  [("format", .str "json"), ("count", .num "1"), ("name", .str location_name)]
    ++ (match country with
        | some c => if c ≠ "" then [("country", .str c)] else []
        | none => [])

/-- The message of the `ValueError` raised when geocoding finds nothing:
the f-string interpolating `location_name` between single quotes into
`Location ... not found.`. -/
def locationNotFoundMsg (location_name : String) : String :=
  "Location " ++ String.singleton (Char.ofNat 39) ++ location_name
    ++ String.singleton (Char.ofNat 39) ++ " not found."

/-- `_geocode(location_name, country)`: build the query, issue the GET
(recorded as the returned `HttpCall`), raise for a non-success status, read
`results` from the body (defaulting to the empty list), raise `ValueError`
when that is falsy, and return its first element. -/
def _geocode (location_name : String) (country : Option String) (env : Env) :
    Except ToolError Json × HttpCall :=
  let encoded_params := urlencode (geocodeParams location_name country)
  let result : Except ToolError Json :=
    match raise_for_status env.geocodeStatus with
    | .error e => .error e
    | .ok _ =>
      match dictGet env.geocodeBody "results" (.arr []) with
      | .error e => .error e
      | .ok results =>
        if truthy results = false then
          .error (.valueError (locationNotFoundMsg location_name))
        else
          match results with
          | .arr (x :: _) => .ok x
          | .arr [] => .error .indexError
          | _ => .error .typeError
  (result, .geocodeCall encoded_params)

/-- Python `input.start_date or str(current_date)`: the supplied string
unless it is `None` or empty. -/
def orToday (field : Option String) (current_date : String) : String :=
  match field with
  | some s => if s ≠ "" then s else current_date
  | none => current_date

/-- `_get_forecast_params(input, geocode)`: one clock read gives
`current_date`; the dict copies `geocode["latitude"]`/`geocode["longitude"]`
(each a possible `KeyError`), fixes the current/daily field selectors and
the timezone, defaults the two dates independently to `str(current_date)`,
and copies the temperature unit. -/
def _get_forecast_params (input : OpenMeteoToolInput) (geocode : Json) (current_date : String) :
    Except ToolError (List (String × Json)) :=
  match dictItem geocode "latitude" with
  | .error e => .error e
  | .ok lat =>
    match dictItem geocode "longitude" with
    | .error e => .error e
    | .ok lon =>
      .ok [("latitude", lat),
           ("longitude", lon),
           ("current", .str "temperature_2m,rain,relative_humidity_2m,wind_speed_10m"),
           ("daily", .str "temperature_2m_max,temperature_2m_min,rain_sum"),
           ("timezone", .str "UTC"),
           ("start_date", .str (orToday input.start_date current_date)),
           ("end_date", .str (orToday input.end_date current_date)),
           ("temperature_unit", .str input.temperature_unit.toString)]

/-- `open_meteo_tool(input)`: geocode, build forecast params, issue the
forecast GET, raise for a non-success status, and return the forecast body
re-serialized with `json.dumps(..., indent=2)`.  The second component is
the trace of HTTP requests actually issued, in order. -/
def open_meteo_tool (input : OpenMeteoToolInput) (env : Env) :
    Except ToolError String × List HttpCall :=
  match _geocode input.location_name input.country env with
  | (.error e, gcall) => (.error e, [gcall])
  | (.ok geocode, gcall) =>
    match _get_forecast_params input geocode env.today with
    | .error e => (.error e, [gcall])
    | .ok params =>
      let encoded := urlencode params
      match raise_for_status env.forecastStatus with
      | .error e => (.error e, [gcall, .forecastCall encoded])
      | .ok _ => (.ok (json_dumps_indent2 env.forecastBody), [gcall, .forecastCall encoded])

/-- The parameter list `_get_forecast_params` returns when both coordinate
lookups succeed. -/
def forecastParamList (input : OpenMeteoToolInput) (lat lon : Json) (cd : String) :
    List (String × Json) :=
  [("latitude", lat),
   ("longitude", lon),
   ("current", .str "temperature_2m,rain,relative_humidity_2m,wind_speed_10m"),
   ("daily", .str "temperature_2m_max,temperature_2m_min,rain_sum"),
   ("timezone", .str "UTC"),
   ("start_date", .str (orToday input.start_date cd)),
   ("end_date", .str (orToday input.end_date cd)),
   ("temperature_unit", .str input.temperature_unit.toString)]

theorem get_forecast_params_ok (input : OpenMeteoToolInput) (geo : Json) (cd : String)
    (lat lon : Json) (hlat : dictItem geo "latitude" = .ok lat)
    (hlon : dictItem geo "longitude" = .ok lon) :
    _get_forecast_params input geo cd = .ok (forecastParamList input lat lon cd) := by
  simp only [_get_forecast_params, hlat, hlon, forecastParamList]

theorem get_forecast_params_inv (input : OpenMeteoToolInput) (geo : Json) (cd : String)
    (ps : List (String × Json)) (h : _get_forecast_params input geo cd = .ok ps) :
    ∃ lat lon, dictItem geo "latitude" = .ok lat ∧ dictItem geo "longitude" = .ok lon ∧
      ps = forecastParamList input lat lon cd := by
  unfold _get_forecast_params at h
  cases h1 : dictItem geo "latitude" with
  | error e => rw [h1] at h; cases h
  | ok lat =>
    cases h2 : dictItem geo "longitude" with
    | error e => rw [h1, h2] at h; cases h
    | ok lon =>
      rw [h1, h2] at h
      exact ⟨lat, lon, rfl, rfl, (Except.ok.inj h).symm⟩

/-- C1: when `start_date` is omitted the built `start_date` parameter is the
current UTC date string, likewise for `end_date`; the two are defaulted
independently, so supplying only one of the two dates leaves the other
defaulted to the current date, not to the supplied date. -/
theorem omitted_dates_default_independently_to_today (input : OpenMeteoToolInput)
    (geo : Json) (cd : String) (ps : List (String × Json))
    (h : _get_forecast_params input geo cd = .ok ps) :
    (input.start_date = none → List.lookup "start_date" ps = some (.str cd)) ∧
    (input.end_date = none → List.lookup "end_date" ps = some (.str cd)) ∧
    (∀ d, d ≠ "" → input.start_date = none → input.end_date = some d →
      List.lookup "start_date" ps = some (.str cd) ∧
      List.lookup "end_date" ps = some (.str d)) ∧
    (∀ d, d ≠ "" → input.start_date = some d → input.end_date = none →
      List.lookup "start_date" ps = some (.str d) ∧
      List.lookup "end_date" ps = some (.str cd)) := by
  obtain ⟨lat, lon, hlat, hlon, hps⟩ := get_forecast_params_inv input geo cd ps h
  subst hps
  refine ⟨fun hs => ?_, fun he => ?_, fun d hd hs he => ⟨?_, ?_⟩, fun d hd hs he => ⟨?_, ?_⟩⟩
  · simp [forecastParamList, List.lookup, orToday, hs]
  · simp [forecastParamList, List.lookup, orToday, he]
  · simp [forecastParamList, List.lookup, orToday, hs]
  · simp [forecastParamList, List.lookup, orToday, he, hd]
  · simp [forecastParamList, List.lookup, orToday, hs, hd]
  · simp [forecastParamList, List.lookup, orToday, he]

/-- Closed instance of C1: a request with `start_date` omitted and
`end_date` supplied gets `start_date` defaulted to the clock date and
`end_date` kept. -/
theorem omitted_dates_default_independently_to_today_witness :
    List.lookup "start_date"
        (forecastParamList ⟨"Berlin", none, none, some "2026-01-02", .celsius⟩
          (.num "52.52") (.num "13.41") "2026-10-12") = some (.str "2026-10-12") ∧
    List.lookup "end_date"
        (forecastParamList ⟨"Berlin", none, none, some "2026-01-02", .celsius⟩
          (.num "52.52") (.num "13.41") "2026-10-12") = some (.str "2026-01-02") :=
  (omitted_dates_default_independently_to_today
      ⟨"Berlin", none, none, some "2026-01-02", .celsius⟩
      (.obj [("latitude", .num "52.52"), ("longitude", .num "13.41")])
      "2026-10-12" _ rfl).2.2.1 "2026-01-02" (by decide) rfl rfl

/-- C2: the geocoding query always carries `format=json`, `count=1` and
`name=location_name`; a supplied country adds a `country` parameter with
that exact value, an omitted country adds no `country` parameter at all. -/
theorem geocode_query_construction (location_name : String) (c : String) (hc : c ≠ "") :
    geocodeParams location_name none =
      [("format", .str "json"), ("count", .num "1"), ("name", .str location_name)] ∧
    geocodeParams location_name (some c) =
      [("format", .str "json"), ("count", .num "1"), ("name", .str location_name),
       ("country", .str c)] ∧
    (∀ v, ("country", v) ∉ geocodeParams location_name none) := by
  refine ⟨rfl, by simp [geocodeParams, hc], fun v => ?_⟩
  simp [geocodeParams]

/-- Closed instance of C2 at `location_name = "Berlin"`, `country = "DE"`. -/
theorem geocode_query_construction_witness :
    geocodeParams "Berlin" (some "DE") =
      [("format", .str "json"), ("count", .num "1"), ("name", .str "Berlin"),
       ("country", .str "DE")] ∧
    geocodeParams "Berlin" none =
      [("format", .str "json"), ("count", .num "1"), ("name", .str "Berlin")] :=
  ⟨(geocode_query_construction "Berlin" "DE" (by decide)).2.1,
   (geocode_query_construction "Berlin" "DE" (by decide)).1⟩

theorem geocode_raise_for_status_error (name : String) (country : Option String)
    (env : Env) (e : ToolError)
    (hstat : raise_for_status env.geocodeStatus = .error e) :
    _geocode name country env =
      (.error e, .geocodeCall (urlencode (geocodeParams name country))) := by
  unfold _geocode
  rw [hstat]

theorem geocode_empty_results (name : String) (country : Option String) (env : Env)
    (hstat : raise_for_status env.geocodeStatus = .ok ())
    (hres : dictGet env.geocodeBody "results" (.arr []) = .ok (.arr [])) :
    _geocode name country env =
      (.error (.valueError (locationNotFoundMsg name)),
       .geocodeCall (urlencode (geocodeParams name country))) := by
  unfold _geocode
  rw [hstat, hres]
  rfl

theorem tool_of_geocode_error (input : OpenMeteoToolInput) (env : Env) (e : ToolError)
    (q : String)
    (hg : _geocode input.location_name input.country env = (.error e, .geocodeCall q)) :
    open_meteo_tool input env = (.error e, [.geocodeCall q]) := by
  unfold open_meteo_tool
  rw [hg]

/-- C3: a transport-successful geocoding response whose `results` list is
empty makes the whole operation fail with the location-not-found
`ValueError`, whose message embeds the requested `location_name`; the
forecast endpoint is never called, and this error kind is distinct from a
transport (HTTP) failure. -/
theorem empty_geocode_results_yield_location_not_found (input : OpenMeteoToolInput)
    (env : Env)
    (hstat : raise_for_status env.geocodeStatus = .ok ())
    (hres : dictGet env.geocodeBody "results" (.arr []) = .ok (.arr [])) :
    open_meteo_tool input env =
      (.error (.valueError (("Location " ++ String.singleton (Char.ofNat 39))
          ++ input.location_name ++ (String.singleton (Char.ofNat 39) ++ " not found."))),
       [.geocodeCall (urlencode (geocodeParams input.location_name input.country))]) ∧
    (∀ q, HttpCall.forecastCall q ∉ (open_meteo_tool input env).2) ∧
    (∀ m s, (ToolError.valueError m : ToolError) ≠ .httpError s) := by
  have htool := tool_of_geocode_error input env _ _
    (geocode_empty_results input.location_name input.country env hstat hres)
  have hmsg : locationNotFoundMsg input.location_name =
      ("Location " ++ String.singleton (Char.ofNat 39))
        ++ input.location_name ++ (String.singleton (Char.ofNat 39) ++ " not found.") := by
    simp [locationNotFoundMsg, String.append_assoc]
  refine ⟨by rw [htool, hmsg], ?_, ?_⟩
  · rw [htool]
    simp
  · intro m s
    simp

/-- Closed instance of C3: geocoding `"Atlantis"` answers HTTP 200 with an
empty results list. -/
theorem empty_geocode_results_yield_location_not_found_witness :
    open_meteo_tool ⟨"Atlantis", none, none, none, .celsius⟩
        ⟨200, .obj [("results", .arr [])], 200, .null, "2026-10-12"⟩ =
      (.error (.valueError (("Location " ++ String.singleton (Char.ofNat 39))
          ++ "Atlantis" ++ (String.singleton (Char.ofNat 39) ++ " not found."))),
       [.geocodeCall (urlencode (geocodeParams "Atlantis" none))]) :=
  (empty_geocode_results_yield_location_not_found
    ⟨"Atlantis", none, none, none, .celsius⟩
    ⟨200, .obj [("results", .arr [])], 200, .null, "2026-10-12"⟩ rfl rfl).1

/-- C4: a non-success geocoding HTTP status (any 4xx/5xx, e.g. 404) fails
the operation with the transport error — not the location-not-found
`ValueError` — and the forecast endpoint is never called: the trace holds
only the geocoding request. -/
theorem geocode_http_failure_short_circuits (input : OpenMeteoToolInput) (env : Env)
    (h4 : 400 ≤ env.geocodeStatus) (h6 : env.geocodeStatus < 600) :
    open_meteo_tool input env =
      (.error (.httpError env.geocodeStatus),
       [.geocodeCall (urlencode (geocodeParams input.location_name input.country))]) ∧
    (∀ q, HttpCall.forecastCall q ∉ (open_meteo_tool input env).2) ∧
    (∀ s m, (ToolError.httpError s : ToolError) ≠ .valueError m) := by
  have hstat : raise_for_status env.geocodeStatus =
      .error (.httpError env.geocodeStatus) := by
    simp [raise_for_status, h4, h6]
  have htool := tool_of_geocode_error input env _ _
    (geocode_raise_for_status_error input.location_name input.country env _ hstat)
  refine ⟨htool, ?_, ?_⟩
  · rw [htool]
    simp
  · intro s m
    simp

/-- Closed instance of C4: geocoding `"Berlin"` answers HTTP 404. -/
theorem geocode_http_failure_short_circuits_witness :
    open_meteo_tool ⟨"Berlin", none, none, none, .celsius⟩
        ⟨404, .null, 200, .null, "2026-10-12"⟩ =
      (.error (.httpError 404),
       [.geocodeCall (urlencode (geocodeParams "Berlin" none))]) :=
  (geocode_http_failure_short_circuits ⟨"Berlin", none, none, none, .celsius⟩
    ⟨404, .null, 200, .null, "2026-10-12"⟩ (by decide) (by decide)).1

/-- C5: with a successful geocode candidate, the forecast parameter set
copies latitude/longitude verbatim, fixes the current-fields selector, the
daily-fields selector and the timezone, and copies the temperature unit
verbatim — `fahrenheit` showing up as `temperature_unit=fahrenheit` among
the encoded query components. -/
theorem forecast_params_contents (input : OpenMeteoToolInput) (geo : Json) (cd : String)
    (lat lon : Json)
    (hlat : dictItem geo "latitude" = .ok lat)
    (hlon : dictItem geo "longitude" = .ok lon) :
    _get_forecast_params input geo cd = .ok (forecastParamList input lat lon cd) ∧
    List.lookup "latitude" (forecastParamList input lat lon cd) = some lat ∧
    List.lookup "longitude" (forecastParamList input lat lon cd) = some lon ∧
    List.lookup "current" (forecastParamList input lat lon cd) =
      some (.str "temperature_2m,rain,relative_humidity_2m,wind_speed_10m") ∧
    List.lookup "daily" (forecastParamList input lat lon cd) =
      some (.str "temperature_2m_max,temperature_2m_min,rain_sum") ∧
    List.lookup "timezone" (forecastParamList input lat lon cd) = some (.str "UTC") ∧
    List.lookup "temperature_unit" (forecastParamList input lat lon cd) =
      some (.str input.temperature_unit.toString) ∧
    (input.temperature_unit = .fahrenheit →
      "temperature_unit=fahrenheit" ∈ (forecastParamList input lat lon cd).map encodePair) := by
  refine ⟨get_forecast_params_ok input geo cd lat lon hlat hlon,
    rfl, rfl, rfl, rfl, rfl, rfl, fun h => ?_⟩
  have hmem : ("temperature_unit", Json.str input.temperature_unit.toString)
      ∈ forecastParamList input lat lon cd := by simp [forecastParamList]
  have h2 := List.mem_map_of_mem encodePair hmem
  rw [h] at h2
  exact h2

/-- Closed instance of C5 with `temperature_unit = "fahrenheit"`. -/
theorem forecast_params_contents_witness :
    _get_forecast_params ⟨"Berlin", none, none, none, .fahrenheit⟩
        (.obj [("latitude", .num "52.52"), ("longitude", .num "13.41")]) "2026-10-12" =
      .ok (forecastParamList ⟨"Berlin", none, none, none, .fahrenheit⟩
        (.num "52.52") (.num "13.41") "2026-10-12") ∧
    "temperature_unit=fahrenheit" ∈
      (forecastParamList ⟨"Berlin", none, none, none, .fahrenheit⟩
        (.num "52.52") (.num "13.41") "2026-10-12").map encodePair :=
  ⟨(forecast_params_contents ⟨"Berlin", none, none, none, .fahrenheit⟩
      (.obj [("latitude", .num "52.52"), ("longitude", .num "13.41")]) "2026-10-12"
      (.num "52.52") (.num "13.41") rfl rfl).1,
   (forecast_params_contents ⟨"Berlin", none, none, none, .fahrenheit⟩
      (.obj [("latitude", .num "52.52"), ("longitude", .num "13.41")]) "2026-10-12"
      (.num "52.52") (.num "13.41") rfl rfl).2.2.2.2.2.2.2 rfl⟩

theorem geocode_first_result (name : String) (country : Option String) (env : Env)
    (cand : Json) (rest : List Json)
    (hstat : raise_for_status env.geocodeStatus = .ok ())
    (hres : dictGet env.geocodeBody "results" (.arr []) = .ok (.arr (cand :: rest))) :
    _geocode name country env =
      (.ok cand, .geocodeCall (urlencode (geocodeParams name country))) := by
  unfold _geocode
  rw [hstat, hres]
  rfl

/-- C6: when the geocoding call succeeds with a usable first candidate and
the forecast call returns a success status, the tool output is exactly
`json.dumps(forecast_body, indent=2)` — the forecast response body passed
through unchanged, re-serialized with 2-space indentation — and exactly
the two HTTP requests were issued. -/
theorem success_output_is_pretty_printed_forecast_body (input : OpenMeteoToolInput)
    (env : Env) (cand : Json) (rest : List Json) (lat lon : Json)
    (hstat : raise_for_status env.geocodeStatus = .ok ())
    (hres : dictGet env.geocodeBody "results" (.arr []) = .ok (.arr (cand :: rest)))
    (hlat : dictItem cand "latitude" = .ok lat)
    (hlon : dictItem cand "longitude" = .ok lon)
    (hfstat : raise_for_status env.forecastStatus = .ok ()) :
    open_meteo_tool input env =
      (.ok (json_dumps_indent2 env.forecastBody),
       [.geocodeCall (urlencode (geocodeParams input.location_name input.country)),
        .forecastCall (urlencode (forecastParamList input lat lon env.today))]) := by
  unfold open_meteo_tool
  rw [geocode_first_result input.location_name input.country env cand rest hstat hres]
  dsimp only
  rw [get_forecast_params_ok input cand env.today lat lon hlat hlon]
  dsimp only
  rw [hfstat]

/-- Closed instance of C6 at the example of the spec: geocoding answers
`{"results": [{"latitude": 52.52, "longitude": 13.41}]}` and the forecast
service answers `{"current": {"temperature_2m": 5.0}}`; the output is the
byte-exact 2-space-indented rendering of that forecast body. -/
theorem success_output_is_pretty_printed_forecast_body_witness :
    open_meteo_tool ⟨"Berlin", none, none, none, .celsius⟩
        ⟨200, .obj [("results", .arr [.obj [("latitude", .num "52.52"),
            ("longitude", .num "13.41")]])],
         200, .obj [("current", .obj [("temperature_2m", .num "5.0")])], "2026-10-12"⟩ =
      (.ok (json_dumps_indent2 (.obj [("current", .obj [("temperature_2m", .num "5.0")])])),
       [.geocodeCall (urlencode (geocodeParams "Berlin" none)),
        .forecastCall (urlencode (forecastParamList ⟨"Berlin", none, none, none, .celsius⟩
          (.num "52.52") (.num "13.41") "2026-10-12"))]) ∧
    json_dumps_indent2 (.obj [("current", .obj [("temperature_2m", .num "5.0")])]) =
      "\x7b\n  \"current\": \x7b\n    \"temperature_2m\": 5.0\n  \x7d\n\x7d" :=
  ⟨success_output_is_pretty_printed_forecast_body
      ⟨"Berlin", none, none, none, .celsius⟩
      ⟨200, .obj [("results", .arr [.obj [("latitude", .num "52.52"),
          ("longitude", .num "13.41")]])],
       200, .obj [("current", .obj [("temperature_2m", .num "5.0")])], "2026-10-12"⟩
      (.obj [("latitude", .num "52.52"), ("longitude", .num "13.41")]) []
      (.num "52.52") (.num "13.41") rfl rfl rfl rfl rfl,
   by
    simp only [json_dumps_indent2, dumpVal, dumpFields, jsonQuote, jsonEscapeChar, spaces]
    rfl⟩

theorem geocode_env_agnostic (name : String) (country : Option String)
    (env1 env2 : Env)
    (h1 : env1.geocodeStatus = env2.geocodeStatus)
    (h2 : env1.geocodeBody = env2.geocodeBody) :
    _geocode name country env1 = _geocode name country env2 := by
  unfold _geocode
  rw [h1, h2]

/-- C7: with explicit non-empty `start_date` and `end_date`, the built
forecast parameters do not depend on the clock at all, and two runs whose
geocoding endpoint answers identically issue identical HTTP request
traces even if the clock or the answer of the forecast endpoint differ. -/
theorem explicit_requests_deterministic_queries (input : OpenMeteoToolInput)
    (env1 env2 : Env) (s e : String)
    (hs : input.start_date = some s) (hs0 : s ≠ "")
    (he : input.end_date = some e) (he0 : e ≠ "")
    (hg1 : env1.geocodeStatus = env2.geocodeStatus)
    (hg2 : env1.geocodeBody = env2.geocodeBody) :
    (∀ geo cd1 cd2, _get_forecast_params input geo cd1 = _get_forecast_params input geo cd2) ∧
    (open_meteo_tool input env1).2 = (open_meteo_tool input env2).2 := by
  have hparams : ∀ geo cd1 cd2,
      _get_forecast_params input geo cd1 = _get_forecast_params input geo cd2 := by
    intro geo cd1 cd2
    unfold _get_forecast_params
    cases h1 : dictItem geo "latitude" with
    | error e1 => rfl
    | ok lat =>
      cases h2 : dictItem geo "longitude" with
      | error e2 => rfl
      | ok lon =>
        simp [orToday, hs, he, hs0, he0]
  refine ⟨hparams, ?_⟩
  unfold open_meteo_tool
  rw [geocode_env_agnostic input.location_name input.country env1 env2 hg1 hg2]
  rcases hp : _geocode input.location_name input.country env2 with ⟨res, gcall⟩
  cases res with
  | error e1 => rfl
  | ok geocode =>
    dsimp only
    rw [hparams geocode env1.today env2.today]
    cases hq : _get_forecast_params input geocode env2.today with
    | error e1 => rfl
    | ok params =>
      dsimp only
      cases raise_for_status env1.forecastStatus <;>
        cases raise_for_status env2.forecastStatus <;> rfl

/-- Closed instance of C7: same request and geocoding answer, different
clock dates and different forecast answers, identical request traces. -/
theorem explicit_requests_deterministic_queries_witness :
    (open_meteo_tool ⟨"Berlin", some "DE", some "2026-01-01", some "2026-01-03", .celsius⟩
        ⟨200, .obj [("results", .arr [.obj [("latitude", .num "52.52"),
            ("longitude", .num "13.41")]])], 200, .null, "2026-10-12"⟩).2 =
    (open_meteo_tool ⟨"Berlin", some "DE", some "2026-01-01", some "2026-01-03", .celsius⟩
        ⟨200, .obj [("results", .arr [.obj [("latitude", .num "52.52"),
            ("longitude", .num "13.41")]])], 500, .bool true, "2027-02-03"⟩).2 :=
  (explicit_requests_deterministic_queries
    ⟨"Berlin", some "DE", some "2026-01-01", some "2026-01-03", .celsius⟩
    ⟨200, .obj [("results", .arr [.obj [("latitude", .num "52.52"),
        ("longitude", .num "13.41")]])], 200, .null, "2026-10-12"⟩
    ⟨200, .obj [("results", .arr [.obj [("latitude", .num "52.52"),
        ("longitude", .num "13.41")]])], 500, .bool true, "2027-02-03"⟩
    "2026-01-01" "2026-01-03" rfl (by decide) rfl (by decide) rfl rfl).2

/-- C8: an optional text field supplied as the empty string behaves as if
omitted — `country=""` adds no `country` parameter to the geocoding query
(Python truthiness in `if country:`), and `start_date=""`/`end_date=""` are
replaced by the current date (Python `or` defaulting) rather than sent
empty. -/
theorem empty_optional_strings_treated_as_omitted (name : String)
    (input : OpenMeteoToolInput) (geo : Json) (cd : String) (ps : List (String × Json))
    (hs : input.start_date = some "") (he : input.end_date = some "")
    (h : _get_forecast_params input geo cd = .ok ps) :
    geocodeParams name (some "") = geocodeParams name none ∧
    (∀ v, ("country", v) ∉ geocodeParams name (some "")) ∧
    List.lookup "start_date" ps = some (.str cd) ∧
    List.lookup "end_date" ps = some (.str cd) := by
  obtain ⟨lat, lon, hlat, hlon, hps⟩ := get_forecast_params_inv input geo cd ps h
  subst hps
  refine ⟨by simp [geocodeParams], fun v => by simp [geocodeParams], ?_, ?_⟩
  · simp [forecastParamList, List.lookup, orToday, hs]
  · simp [forecastParamList, List.lookup, orToday, he]

/-- Closed instance of C8: empty-string country and dates. -/
theorem empty_optional_strings_treated_as_omitted_witness :
    geocodeParams "Berlin" (some "") = geocodeParams "Berlin" none ∧
    List.lookup "start_date"
        (forecastParamList ⟨"Berlin", some "", some "", some "", .celsius⟩
          (.num "52.52") (.num "13.41") "2026-10-12") = some (.str "2026-10-12") ∧
    List.lookup "end_date"
        (forecastParamList ⟨"Berlin", some "", some "", some "", .celsius⟩
          (.num "52.52") (.num "13.41") "2026-10-12") = some (.str "2026-10-12") :=
  ⟨(empty_optional_strings_treated_as_omitted "Berlin"
      ⟨"Berlin", some "", some "", some "", .celsius⟩
      (.obj [("latitude", .num "52.52"), ("longitude", .num "13.41")])
      "2026-10-12" _ rfl rfl rfl).1,
   (empty_optional_strings_treated_as_omitted "Berlin"
      ⟨"Berlin", some "", some "", some "", .celsius⟩
      (.obj [("latitude", .num "52.52"), ("longitude", .num "13.41")])
      "2026-10-12" _ rfl rfl rfl).2.2.1,
   (empty_optional_strings_treated_as_omitted "Berlin"
      ⟨"Berlin", some "", some "", some "", .celsius⟩
      (.obj [("latitude", .num "52.52"), ("longitude", .num "13.41")])
      "2026-10-12" _ rfl rfl rfl).2.2.2⟩

/-- C9: when both dates default (omitted or empty), the built `start_date`
and `end_date` are the same string: both come from the single
`datetime.now(tz=UTC).date()` read the function performs, so they cannot
straddle a midnight between two clock reads. -/
theorem both_defaults_agree_single_clock_read (input : OpenMeteoToolInput)
    (geo : Json) (cd : String) (ps : List (String × Json))
    (hs : input.start_date = none ∨ input.start_date = some "")
    (he : input.end_date = none ∨ input.end_date = some "")
    (h : _get_forecast_params input geo cd = .ok ps) :
    List.lookup "start_date" ps = some (.str cd) ∧
    List.lookup "end_date" ps = some (.str cd) ∧
    List.lookup "start_date" ps = List.lookup "end_date" ps := by
  obtain ⟨lat, lon, hlat, hlon, hps⟩ := get_forecast_params_inv input geo cd ps h
  subst hps
  rcases hs with hs | hs <;> rcases he with he | he <;>
    exact ⟨by simp [forecastParamList, List.lookup, orToday, hs],
           by simp [forecastParamList, List.lookup, orToday, he],
           by simp [forecastParamList, List.lookup, orToday, hs, he]⟩

/-- Closed instance of C9: one date omitted, the other empty. -/
theorem both_defaults_agree_single_clock_read_witness :
    List.lookup "start_date"
        (forecastParamList ⟨"Berlin", none, none, some "", .celsius⟩
          (.num "52.52") (.num "13.41") "2026-10-12") =
      List.lookup "end_date"
        (forecastParamList ⟨"Berlin", none, none, some "", .celsius⟩
          (.num "52.52") (.num "13.41") "2026-10-12") :=
  (both_defaults_agree_single_clock_read ⟨"Berlin", none, none, some "", .celsius⟩
    (.obj [("latitude", .num "52.52"), ("longitude", .num "13.41")])
    "2026-10-12" _ (Or.inl rfl) (Or.inr rfl) rfl).2.2

/-- C10: forecast-parameter construction succeeds whenever the first
candidate carries both `latitude` and `longitude`; a missing field fails
with the corresponding `KeyError`, an error kind distinct from both the
location-not-found `ValueError` and the transport (HTTP) error. -/
theorem forecast_params_need_lat_lon (input : OpenMeteoToolInput) (cd : String)
    (fields : List (String × Json)) :
    (∀ lat lon, List.lookup "latitude" fields = some lat →
      List.lookup "longitude" fields = some lon →
      _get_forecast_params input (.obj fields) cd =
        .ok (forecastParamList input lat lon cd)) ∧
    (List.lookup "latitude" fields = none →
      _get_forecast_params input (.obj fields) cd = .error (.keyError "latitude")) ∧
    (∀ lat, List.lookup "latitude" fields = some lat →
      List.lookup "longitude" fields = none →
      _get_forecast_params input (.obj fields) cd = .error (.keyError "longitude")) ∧
    (∀ k m, (ToolError.keyError k : ToolError) ≠ .valueError m) ∧
    (∀ k st, (ToolError.keyError k : ToolError) ≠ .httpError st) := by
  refine ⟨fun lat lon hlat hlon => ?_, fun hnone => ?_, fun lat hlat hnone => ?_,
    by simp, by simp⟩
  · exact get_forecast_params_ok input (.obj fields) cd lat lon
      (by simp [dictItem, hlat]) (by simp [dictItem, hlon])
  · simp only [_get_forecast_params, dictItem, hnone]
  · simp only [_get_forecast_params, dictItem, hlat, hnone]

/-- Closed instance of C10: a first candidate without coordinates fails
with `KeyError("latitude")`. -/
theorem forecast_params_need_lat_lon_witness :
    _get_forecast_params ⟨"Berlin", none, none, none, .celsius⟩
        (.obj [("name", .str "Berlin")]) "2026-10-12" = .error (.keyError "latitude") :=
  (forecast_params_need_lat_lon ⟨"Berlin", none, none, none, .celsius⟩
    "2026-10-12" [("name", .str "Berlin")]).2.1 rfl
